import Mathlib

/-!
Verification of the crd-api-rs client library for the Collaborative
Reference Database (CRD) search API.

The development shallowly embeds the Rust sources:
* `src/cql.rs`  — the CQL query expression tree and its serializer;
* `src/response.rs` — the success-page data model, the record-kind
  resolution of result items, and the optional-date field decoder;
* `src/error.rs` — the error-list envelope and its deserializer;
* `src/client.rs` — the two-pass envelope resolution in `Client::search`.

External crates (reqwest, quick_xml, serde, chrono) are not part of the
repository: their effects enter the model as explicit parameters (decode
outcomes, an abstract date parser), while every piece of control flow and
data written in the repository itself is translated directly.
-/

namespace CrdApi

/-! ## cql.rs -/

/-- Embeds `struct Index(String)` (cql.rs): a query target field. -/
structure Index where
  val : String
deriving DecidableEq, Repr

/-- Embeds `impl From<&str> for Index` (cql.rs). -/
def Index.ofStr (s : String) : Index := ⟨s⟩

/-- Embeds `impl Display for Index` (cql.rs): renders the inner string. -/
def Index.render (i : Index) : String := i.val

/-- Embeds `enum Relation` (cql.rs). -/
inductive Relation where
  | All
  | Any
  | Equal
deriving DecidableEq, Repr

/-- Embeds `impl Display for Relation` (cql.rs). -/
def Relation.render : Relation → String
  | .All => "all"
  | .Any => "any"
  | .Equal => "="

/-- Embeds `enum Boolean` (cql.rs). -/
inductive Boolean where
  | And
  | Or
  | Not
deriving DecidableEq, Repr

/-- Embeds `impl Display for Boolean` (cql.rs). -/
def Boolean.render : Boolean → String
  | .And => "and"
  | .Or => "or"
  | .Not => "not"

/-- Embeds `enum Query` (cql.rs): a CQL search expression, either a single
search clause or the boolean combination of two sub-queries. -/
inductive Query where
  | SearchClause (index : Index) (relation : Relation) (search_term : List String)
  | ScopedClause (left : Query) (boolean : Boolean) (right : Query)
deriving DecidableEq, Repr

/-- Embeds `Query::all` (cql.rs): AND search over several keywords.
The Rust signature takes `index: impl Into<Index>`; the only `From`
implementation is `From<&str>`, so the embedding takes the string. -/
def Query.all (index : String) (search_term : List String) : Query :=
  .SearchClause (Index.ofStr index) .All search_term

/-- Embeds `Query::any` (cql.rs): OR search over several keywords. -/
def Query.any (index : String) (search_term : List String) : Query :=
  .SearchClause (Index.ofStr index) .Any search_term

/-- Embeds `Query::equal` (cql.rs): match search for the given keywords. -/
def Query.equal (index : String) (search_term : List String) : Query :=
  .SearchClause (Index.ofStr index) .Equal search_term

/-- Embeds `Query::new` (cql.rs): the simple search, delegating to
`Self::equal("anywhere", search_term)`. -/
def Query.new (search_term : List String) : Query :=
  Query.equal "anywhere" search_term

/-- Embeds `Query::and` (cql.rs). -/
def Query.and (self right : Query) : Query :=
  .ScopedClause self .And right

/-- Embeds `Query::or` (cql.rs). -/
def Query.or (self right : Query) : Query :=
  .ScopedClause self .Or right

/-- Embeds `Query::not` (cql.rs). -/
def Query.not (self right : Query) : Query :=
  .ScopedClause self .Not right

/-- Embeds `impl Display for Query` (cql.rs): a scoped clause writes
`"{left} {boolean} "` and then the right operand, wrapped as `( {right} )`
exactly when the right operand is itself a `ScopedClause`; a search clause
writes `"{index} {relation} {terms joined by single spaces}"`. -/
def Query.render : Query → String
  | .ScopedClause left boolean right =>
      left.render ++ " " ++ boolean.render ++ " " ++
        match right with
        | .ScopedClause .. => "( " ++ right.render ++ " )"
        | .SearchClause .. => right.render
  | .SearchClause index relation search_term =>
      index.render ++ " " ++ relation.render ++ " " ++
        String.intercalate " " search_term

/-- Whether a query is a combination (`ScopedClause`) node; used to state
the parenthesization rule of the serializer. -/
def Query.isScopedClause : Query → Bool
  | .ScopedClause .. => true
  | .SearchClause .. => false

/-! ## response.rs: data model -/

/-- Embeds `chrono::NaiveDate` as carried by the records (an external
type; only its identity matters to the repository's code). -/
structure NaiveDate where
  year : Int
  month : Nat
  day : Nat
deriving DecidableEq, Repr

/-- Embeds `chrono::NaiveDateTime` as carried by the records. -/
structure NaiveDateTime where
  year : Int
  month : Nat
  day : Nat
  hour : Nat
  minute : Nat
  second : Nat
deriving DecidableEq, Repr

/-- Embeds `struct Class` (response.rs). The Rust field `class` is a Lean
keyword, hence the guillemets. -/
structure Class where
  class_type : String
  version : Option String
  «class» : String
deriving DecidableEq, Repr

/-- Embeds `struct Bibl` (response.rs). -/
structure Bibl where
  bibl_desc : Option String
  bibl_isbn : Option String
  bibl_note : Option String
deriving DecidableEq, Repr

/-- Embeds `struct System` (response.rs): system management metadata. -/
structure System where
  reg_date : NaiveDateTime
  lst_date : NaiveDateTime
  sys_id : String
  lib_id : String
  lib_name : String
  file_num : Nat
deriving DecidableEq, Repr

/-- Embeds `struct LibSystem` (response.rs): system management metadata of
a participating-library profile. -/
structure LibSystem where
  reg_date : NaiveDateTime
  lst_date : NaiveDateTime
  lib_id : String
  lib_name : String
  file_num : Nat
deriving DecidableEq, Repr

/-- Embeds `struct Reference` (response.rs): a reference case record. -/
structure Reference where
  question : String
  reg_id : String
  answer : String
  crt_date : Option NaiveDate
  solution : Option Bool
  keyword : Option (List String)
  «class» : Option (List Class)
  res_type : Option String
  con_type : Option String
  bibl : Option (List Bibl)
  ans_proc : Option String
  referral : Option (List String)
  pre_res : Option String
  note : Option String
  ptn_type : Option String
  contri : Option (List String)
  system : System
  url : String
deriving DecidableEq, Repr

/-- Embeds `struct Manual` (response.rs): a research guide record. -/
structure Manual where
  theme : String
  reg_id : String
  guide : String
  crt_date : Option NaiveDate
  completion : Option Bool
  keyword : Option (List String)
  «class» : Option (List Class)
  bibl : Option (List Bibl)
  note : Option String
  system : System
  url : String
deriving DecidableEq, Repr

/-- Embeds `struct Collection` (response.rs): a special collection record. -/
structure Collection where
  col_name : String
  pro_key : String
  reg_id : String
  outline : String
  origin : Option String
  restriction : Option String
  catalog : Option String
  literature : Option String
  number : Option String
  collection_continue : Option Bool
  keyword : Option (List String)
  «class» : Option (List Class)
  note : Option String
  system : System
  url : String
deriving DecidableEq, Repr

/-- Embeds `struct Profile` (response.rs): a participating-library
profile record. -/
structure Profile where
  lib_type : String
  lib_name : String
  abbr : String
  pro_key : String
  zip_code : String
  add_pref : String
  add_city : String
  add_street : String
  tel1 : String
  tel1_note : Option String
  tel2 : Option String
  tel2_note : Option String
  tel3 : Option String
  tel3_note : Option String
  fax : Option String
  e_mail : Option String
  lib_url : Option String
  open_info : Option String
  restriction : Option String
  outline : Option String
  feature : Option String
  notes : Option String
  access : Option String
  isil : Option String
  system : LibSystem
  url : String
deriving DecidableEq, Repr

/-- Embeds `struct ResultItemWrapper` (response.rs): the four optional
record-kind slots of one `<result>` element as decoded structurally. -/
structure ResultItemWrapper where
  reference : Option Reference
  manual : Option Manual
  collection : Option Collection
  profile : Option Profile
deriving DecidableEq, Repr

/-- Embeds `enum ResultItem` (response.rs): one result, of one of the
four record kinds. -/
inductive ResultItem where
  | Reference (r : Reference)
  | Manual (m : Manual)
  | Collection (c : Collection)
  | Profile (p : Profile)
deriving DecidableEq, Repr

/-- Embeds `impl Deserialize for ResultItem` (response.rs): after the
wrapper with its four optional slots is decoded, the if-let chain picks
the first populated slot in the order reference, manual, collection,
profile, and fails with the custom message when all four are empty. -/
def ResultItem.deserialize (result : ResultItemWrapper) : Except String ResultItem :=
  match result.reference with
  | some reference => .ok (ResultItem.Reference reference)
  | none =>
    match result.manual with
    | some manual => .ok (ResultItem.Manual manual)
    | none =>
      match result.collection with
      | some collection => .ok (ResultItem.Collection collection)
      | none =>
        match result.profile with
        | some profile => .ok (ResultItem.Profile profile)
        | none =>
          .error "missing field, expected one of `reference`, `manual`, `collection`, `profile`"

/-- Embeds `struct ResultSet` (response.rs): the success-page root node. -/
structure ResultSet where
  hit_num : Nat
  results_get_position : Nat
  results_num : Nat
  results_cd : Nat
  result : List ResultItem
deriving DecidableEq, Repr

/-- Embeds `ResultSet::len` (response.rs). -/
def ResultSet.len (s : ResultSet) : Nat := s.result.length

/-- Embeds `ResultSet::iter` (response.rs): the items in page order. -/
def ResultSet.iter (s : ResultSet) : List ResultItem := s.result

/-- Embeds `ResultSet::filter_reference` (response.rs): filter-map over
the items keeping the `Reference` payloads. -/
def ResultSet.filter_reference (s : ResultSet) : List Reference :=
  s.iter.filterMap fun i =>
    match i with
    | .Reference r => some r
    | _ => none

/-- Embeds `ResultSet::filter_manual` (response.rs). -/
def ResultSet.filter_manual (s : ResultSet) : List Manual :=
  s.iter.filterMap fun i =>
    match i with
    | .Manual m => some m
    | _ => none

/-- Embeds `ResultSet::filter_collection` (response.rs). -/
def ResultSet.filter_collection (s : ResultSet) : List Collection :=
  s.iter.filterMap fun i =>
    match i with
    | .Collection c => some c
    | _ => none

/-- Embeds `ResultSet::filter_profile` (response.rs). -/
def ResultSet.filter_profile (s : ResultSet) : List Profile :=
  s.iter.filterMap fun i =>
    match i with
    | .Profile p => some p
    | _ => none

/-- Whether a result item is of the `Reference` kind (used to state which
items the filtered views keep). -/
def ResultItem.is_reference : ResultItem → Bool
  | .Reference _ => true
  | _ => false

/-- Whether a result item is of the `Manual` kind. -/
def ResultItem.is_manual : ResultItem → Bool
  | .Manual _ => true
  | _ => false

/-- Whether a result item is of the `Collection` kind. -/
def ResultItem.is_collection : ResultItem → Bool
  | .Collection _ => true
  | _ => false

/-- Whether a result item is of the `Profile` kind. -/
def ResultItem.is_profile : ResultItem → Bool
  | .Profile _ => true
  | _ => false

/-! ## response.rs: field decoders -/

/-- Embeds `de_date_opt` (response.rs): the decoder of an optional
`crt-date` field value. The text `"00000000"` decodes to no date; any
other text is handed to `chrono`'s `NaiveDate::parse_from_str(&s,
"%Y%m%d")`, whose success gives the date and whose failure fails the
decode. The chrono parser is an external crate, so it enters the model
as the explicit argument `parse`; the error payload is the parser's
message produced by `serde::de::Error::custom`. -/
def de_date_opt (parse : String → Option NaiveDate) (s : String) :
    Except String (Option NaiveDate) :=
  if s = "00000000" then
    .ok none
  else
    match parse s with
    | some d => .ok (some d)
    | none => .error ("input contains invalid characters: " ++ s)

/-- Embeds the serde attribute `#[serde(deserialize_with = "de_date_opt",
default)]` on `Reference::crt_date` and `Manual::crt_date` (response.rs):
a missing field takes the default `None`; a present field's text goes
through `de_date_opt`. -/
def decode_crt_date (parse : String → Option NaiveDate) (field : Option String) :
    Except String (Option NaiveDate) :=
  match field with
  | none => .ok none
  | some s => de_date_opt parse s

/-! ## error.rs -/

/-- Embeds `struct ApiError` (error.rs): one error entry of the error
envelope. -/
structure ApiError where
  err_code : String
  err_fld : String
  err_msg : String
deriving DecidableEq, Repr

/-- Embeds `struct ErrList` (error.rs). -/
structure ErrList where
  err_item : List ApiError
deriving DecidableEq, Repr

/-- Embeds `struct ErrResultSet` (error.rs): the error-envelope root. -/
structure ErrResultSet where
  results_cd : Nat
  err_list : ErrList
deriving DecidableEq, Repr

/-- Embeds the tuple struct `ApiErrors(Vec<ApiError>)` (error.rs). -/
structure ApiErrors where
  errors : List ApiError
deriving DecidableEq, Repr

/-- Embeds `impl Deserialize for ApiErrors` (error.rs): decode the
`ErrResultSet` envelope and keep its `err_list.err_item` entries. -/
def ApiErrors.deserialize (result_set : ErrResultSet) : ApiErrors :=
  ⟨result_set.err_list.err_item⟩

/-! ## client.rs -/

/-- Model of `quick_xml::DeError` (an external crate's error type),
reduced to its message. -/
def DeError := String
deriving instance DecidableEq, Repr for DeError

/-- Embeds `enum Error` (error.rs): the library's error taxonomy. The
`Request` variant wraps `reqwest::Error`, modelled by its message. -/
inductive Error where
  | Request (e : String)
  | De (e : DeError)
  | Api (e : ApiErrors)

/-- Embeds the envelope resolution of `Client::search` (client.rs,
lines 37–44), after the transport has produced the raw body: `res` is
the outcome of `ResultSet::from_xml(&resp)` and `errRes` the outcome of
`ApiErrors::from_xml(&resp)` (both are `quick_xml` decodes of the same
text, so they enter the model as arguments). If `res` is an error the
code tries `errRes` and returns `Err(Api e)` on its success; otherwise
`res.map_err(Error::De)` is returned. -/
def Client.search (res : Except DeError ResultSet)
    (errRes : Except DeError ApiErrors) : Except Error ResultSet :=
  match res with
  | .ok r => .ok r
  | .error de =>
    match errRes with
    | .ok e => .error (Error.Api e)
    | .error _ => .error (Error.De de)

/-! ## Helper lemmas -/

lemma intercalate_go_append (s a b : String) (as : List String) :
    String.intercalate.go (a ++ b) s as = a ++ String.intercalate.go b s as := by
  induction as generalizing b with
  | nil => simp [String.intercalate.go]
  | cons c cs ih =>
    show String.intercalate.go (a ++ b ++ s ++ c) s cs
        = a ++ String.intercalate.go (b ++ s ++ c) s cs
    rw [String.append_assoc, String.append_assoc, ih, ← String.append_assoc]

lemma intercalate_cons (s a : String) (rest : List String) (h : rest ≠ []) :
    String.intercalate s (a :: rest) = a ++ s ++ String.intercalate s rest := by
  match rest, h with
  | r :: rs, _ =>
    show String.intercalate.go a s (r :: rs) = a ++ s ++ String.intercalate.go r s rs
    show String.intercalate.go (a ++ s ++ r) s rs = a ++ s ++ String.intercalate.go r s rs
    rw [intercalate_go_append (a := a ++ s) (b := r)]

lemma filterMap_reference (l : List ResultItem) :
    (l.filterMap fun i =>
        match i with
        | .Reference r => some r
        | _ => none).map ResultItem.Reference
      = l.filter ResultItem.is_reference := by
  induction l with
  | nil => rfl
  | cons i l ih => cases i <;> simp [ResultItem.is_reference, ih]

lemma filterMap_manual (l : List ResultItem) :
    (l.filterMap fun i =>
        match i with
        | .Manual m => some m
        | _ => none).map ResultItem.Manual
      = l.filter ResultItem.is_manual := by
  induction l with
  | nil => rfl
  | cons i l ih => cases i <;> simp [ResultItem.is_manual, ih]

lemma filterMap_collection (l : List ResultItem) :
    (l.filterMap fun i =>
        match i with
        | .Collection c => some c
        | _ => none).map ResultItem.Collection
      = l.filter ResultItem.is_collection := by
  induction l with
  | nil => rfl
  | cons i l ih => cases i <;> simp [ResultItem.is_collection, ih]

lemma filterMap_profile (l : List ResultItem) :
    (l.filterMap fun i =>
        match i with
        | .Profile p => some p
        | _ => none).map ResultItem.Profile
      = l.filter ResultItem.is_profile := by
  induction l with
  | nil => rfl
  | cons i l ih => cases i <;> simp [ResultItem.is_profile, ih]

/-! ## Sample values (taken from the repository's own test fixtures) -/

/-- A concrete `System` value, after the `system` node of the
`result_set_test` fixture (response.rs). -/
def sampleSystem : System :=
  ⟨⟨2032, 11, 1, 11, 57, 53⟩, ⟨2033, 2, 22, 17, 14, 23⟩,
    "1100323256", "6210033", "図書館", 0⟩

/-- A concrete `LibSystem` value, after the `profile_test` fixture
(response.rs). -/
def sampleLibSystem : LibSystem :=
  ⟨⟨2033, 2, 21, 10, 13, 0⟩, ⟨2033, 2, 21, 14, 58, 57⟩,
    "6100012", "資料館図書室", 0⟩

/-- A concrete `Reference` record, after the first item of the
`result_set_test` fixture (response.rs). -/
def sampleReference : Reference :=
  { question := "質問1"
    reg_id := "001"
    answer := "回答1"
    crt_date := some ⟨2032, 10, 20⟩
    solution := some false
    keyword := some ["キーワード1-1", "キーワード1-2", "キーワード1-3"]
    «class» := some [⟨"NDC", some "9", "21"⟩]
    res_type := some "事実調査"
    con_type := some "郷土"
    bibl := some [⟨some "参考資料1-1", none, none⟩, ⟨some "参考資料1-2", none, none⟩]
    ans_proc := some "回答プロセス1"
    referral := none
    pre_res := none
    note := none
    ptn_type := some "社会人"
    contri := none
    system := sampleSystem
    url := "https://crd.ndl.go.jp/reference/detail?page=ref_view&id=1100323256" }

/-- A concrete `Manual` record, after the `manual_test` fixture
(response.rs). -/
def sampleManual : Manual :=
  { theme := "テーマ"
    reg_id := "2032R006"
    guide := "調べ方"
    crt_date := some ⟨2033, 2, 13⟩
    completion := some false
    keyword := none
    «class» := some [⟨"NDC", none, "219"⟩]
    bibl := some [⟨some "参考資料1", none, some "当館所蔵"⟩]
    note := some "貸出"
    system := ⟨⟨2033, 2, 13, 17, 8, 56⟩, ⟨2033, 2, 20, 11, 0, 42⟩,
      "2100028171", "6110045", "附属図書館", 0⟩
    url := "https://crd.ndl.go.jp/reference/detail?page=man_view&id=2100028171" }

/-- A concrete `Collection` record, after the `collection_test` fixture
(response.rs). -/
def sampleCollection : Collection :=
  { col_name := "地図"
    pro_key := "チズ"
    reg_id := "0000-000"
    outline := "内容"
    origin := none
    restriction := some "要図書館カード"
    catalog := some "蔵書検索にて一覧表示が可能"
    literature := some "ホームページ"
    number := some "75点"
    collection_continue := some false
    keyword := some ["図", "地図"]
    «class» := some [⟨"NDC", some "9", "345"⟩]
    note := none
    system := ⟨⟨2032, 12, 9, 12, 16, 10⟩, ⟨2032, 12, 25, 13, 23, 13⟩,
      "3100004203", "6210006", "中央図書館", 0⟩
    url := "https://crd.ndl.go.jp/reference/detail?page=col_view&id=3100004203" }

/-- A concrete `Profile` record, after the `profile_test` fixture
(response.rs). -/
def sampleProfile : Profile :=
  { lib_type := "61"
    lib_name := "資料館図書室"
    abbr := "資料館"
    pro_key := "シリョウカントショシツ"
    zip_code := "000-0002"
    add_pref := "東京都"
    add_city := "東京市"
    add_street := "東京町1-1-11"
    tel1 := "000-000-0000"
    tel1_note := none
    tel2 := none
    tel2_note := none
    tel3 := none
    tel3_note := none
    fax := some "111-111-1111"
    e_mail := some "lib@example.jp"
    lib_url := some "https://www.example.jp/"
    open_info := some "休室日：蔵書点検期間。"
    restriction := some "https://www.example.jp/services/library/"
    outline := none
    feature := some "特徴"
    notes := some "利用者登録が必要です。"
    access := some "https://www.example.jp/information/access/"
    isil := some "JP-4001495"
    system := sampleLibSystem
    url := "https://crd.ndl.go.jp/reference/detail?page=pro_view&id=6100012" }

/-- A success page holding three items of three distinct record kinds. -/
def samplePage : ResultSet :=
  ⟨3, 1, 3, 0,
    [ResultItem.Reference sampleReference,
     ResultItem.Manual sampleManual,
     ResultItem.Collection sampleCollection]⟩

/-- A concrete two-entry error envelope, after the `api_errors_test`
fixture (error.rs). -/
def sampleErrResultSet : ErrResultSet :=
  ⟨1, ⟨[⟨"0101", "", "検索必須項目が指定されていません。"⟩,
        ⟨"0503", "ndc", "【ndc】に使用できない値が指定されています。"⟩]⟩⟩

/-! ## Claim theorems -/

/-- Claim C1, counterexample: constructing a leaf search clause with an
empty terms list does not fail — `Query::equal("question", [])` returns a
plain `SearchClause` value (the constructors are total, there is no
`ConstructionError` in the code), and that value even serializes. -/
theorem equal_empty_terms_builds_leaf :
    Query.equal "question" []
        = Query.SearchClause (Index.ofStr "question") Relation.Equal []
    ∧ (Query.equal "question" []).render = "question = " :=
  ⟨rfl, rfl⟩

/-- Claim C1, amended: for every field and every list of terms — the empty
list included — the leaf constructors `Query::all`, `Query::any` and
`Query::equal` always succeed, returning the `SearchClause` with that
field, the respective relation, and exactly those terms. -/
theorem leaf_constructors_never_fail (index : String) (ts : List String) :
    Query.all index ts = Query.SearchClause (Index.ofStr index) Relation.All ts
    ∧ Query.any index ts = Query.SearchClause (Index.ofStr index) Relation.Any ts
    ∧ Query.equal index ts = Query.SearchClause (Index.ofStr index) Relation.Equal ts :=
  ⟨rfl, rfl, rfl⟩

/-- Claim C2: envelope resolution in `Client::search` produces exactly one
of three outcomes — the success page when the success-schema decode
succeeds; a `ServiceError` (`Error::Api`) carrying the decoded error list
when the success decode fails and the error-schema decode succeeds; and a
`ParseFailure` (`Error::De`) carrying the original step-1 decode error —
never the step-2 error — when both decodes fail. A transport error
(`Error::Request`) is never produced by the resolution. -/
theorem search_resolution_trichotomy (res : Except DeError ResultSet)
    (errRes : Except DeError ApiErrors) :
    (∀ r, res = .ok r → Client.search res errRes = .ok r)
    ∧ (∀ de e, res = .error de → errRes = .ok e →
        Client.search res errRes = .error (Error.Api e))
    ∧ (∀ de de2, res = .error de → errRes = .error de2 →
        Client.search res errRes = .error (Error.De de))
    ∧ ∀ e, Client.search res errRes ≠ .error (Error.Request e) := by
  refine ⟨?_, ?_, ?_, ?_⟩ <;> cases res <;> cases errRes <;>
    simp [Client.search]

/-- Witness for C2: with a failed success decode and a successful error
decode, the resolution returns the `Api` outcome. -/
theorem search_resolution_trichotomy_witness :
    Client.search (Except.error "boom")
        (Except.ok (ApiErrors.deserialize sampleErrResultSet))
      = Except.error (Error.Api (ApiErrors.deserialize sampleErrResultSet)) :=
  (search_resolution_trichotomy _ _).2.1 "boom" _ rfl rfl

/-- Claim C3: serializing a combination renders the left operand
unparenthesized regardless of its shape, then the operator keyword
(`and`/`or`/`not`), then the right operand wrapped as `( {right} )` if and
only if the right operand is itself a combination node; a leaf right-hand
side is never parenthesized. -/
theorem combination_render_right_parenthesized_iff_combination
    (A B : Query) (b : Boolean) :
    (Query.ScopedClause A b B).render =
      A.render ++ " " ++ b.render ++ " " ++
        (if B.isScopedClause then "( " ++ B.render ++ " )" else B.render)
    ∧ A.and B = Query.ScopedClause A Boolean.And B
    ∧ A.or B = Query.ScopedClause A Boolean.Or B
    ∧ A.not B = Query.ScopedClause A Boolean.Not B
    ∧ Boolean.render Boolean.And = "and"
    ∧ Boolean.render Boolean.Or = "or"
    ∧ Boolean.render Boolean.Not = "not" := by
  cases B <;> exact ⟨rfl, rfl, rfl, rfl, rfl, rfl, rfl⟩

/-- Claim C4: for every result-item wrapper, the record-kind resolution of
`impl Deserialize for ResultItem` returns the first populated slot in the
fixed priority order reference, manual, collection, profile — in
particular, the corresponding typed variant when exactly one slot is
populated — and fails with the error naming all four expected kinds when
no slot is populated. -/
theorem result_item_resolution_priority (w : ResultItemWrapper) :
    (∀ r, w.reference = some r →
        ResultItem.deserialize w = .ok (ResultItem.Reference r))
    ∧ (∀ m, w.reference = none → w.manual = some m →
        ResultItem.deserialize w = .ok (ResultItem.Manual m))
    ∧ (∀ c, w.reference = none → w.manual = none → w.collection = some c →
        ResultItem.deserialize w = .ok (ResultItem.Collection c))
    ∧ (∀ p, w.reference = none → w.manual = none → w.collection = none →
        w.profile = some p → ResultItem.deserialize w = .ok (ResultItem.Profile p))
    ∧ (w.reference = none → w.manual = none → w.collection = none →
        w.profile = none → ResultItem.deserialize w =
          .error "missing field, expected one of `reference`, `manual`, `collection`, `profile`") := by
  refine ⟨?_, ?_, ?_, ?_, ?_⟩
  · intro r hr
    simp [ResultItem.deserialize, hr]
  · intro m h1 h2
    simp [ResultItem.deserialize, h1, h2]
  · intro c h1 h2 h3
    simp [ResultItem.deserialize, h1, h2, h3]
  · intro p h1 h2 h3 h4
    simp [ResultItem.deserialize, h1, h2, h3, h4]
  · intro h1 h2 h3 h4
    simp [ResultItem.deserialize, h1, h2, h3, h4]

/-- Witness for C4: an item with zero populated record-kind slots resolves
to the error naming all four expected kinds. -/
theorem result_item_resolution_priority_witness :
    ResultItem.deserialize ⟨none, none, none, none⟩ =
      Except.error "missing field, expected one of `reference`, `manual`, `collection`, `profile`" :=
  (result_item_resolution_priority ⟨none, none, none, none⟩).2.2.2.2 rfl rfl rfl rfl

/-- Claim C5: for every field, relation and non-empty term list, the leaf
serialization is exactly the tokens field, relation symbol, and the terms,
in order, joined by single spaces with nothing else inserted; the relation
symbols are `all`, `any` and `=`. -/
theorem leaf_render_token_sequence (index : Index) (relation : Relation)
    (ts : List String) (h : ts ≠ []) :
    (Query.SearchClause index relation ts).render
        = String.intercalate " " (index.val :: relation.render :: ts)
    ∧ Relation.render Relation.All = "all"
    ∧ Relation.render Relation.Any = "any"
    ∧ Relation.render Relation.Equal = "=" := by
  refine ⟨?_, rfl, rfl, rfl⟩
  rw [intercalate_cons _ _ _ (by simp), intercalate_cons _ _ _ h]
  simp [Query.render, Index.render, String.append_assoc]

/-- Witness for C5: the leaf `question = rust` consists of exactly the
three space-joined tokens. -/
theorem leaf_render_token_sequence_witness :
    (["rust"] : List String) ≠ []
    ∧ (Query.SearchClause (Index.ofStr "question") Relation.Equal ["rust"]).render
        = String.intercalate " " ["question", "=", "rust"] :=
  ⟨by decide, (leaf_render_token_sequence (Index.ofStr "question")
      Relation.Equal ["rust"] (by decide)).1⟩

/-- Claim C6: the three literal serializations hold exactly, with no
parentheses anywhere in the outputs. -/
theorem literal_serializations :
    (Query.equal "question" ["rust"]).render = "question = rust"
    ∧ ((Query.any "question" ["本"]).and (Query.any "answer" ["村上春樹"])).render
        = "question any 本 and answer any 村上春樹"
    ∧ (((Query.any "question" ["本", "音楽"]).and
          (Query.equal "solution" ["resolved"])).or
            (Query.equal "ptn-type" ["学生"])).render
        = "question any 本 音楽 and solution = resolved or ptn-type = 学生" :=
  ⟨rfl, rfl, rfl⟩

/-- Claim C7: the error-envelope deserializer keeps exactly the `ApiError`
entries of the input's error list, all of them and in order, and the
`ServiceError` outcome of the search resolution carries exactly that list;
on the repository's two-entry fixture this gives two entries whose first
code is the input's first code. -/
theorem service_error_preserves_entries (r : ErrResultSet) (de : DeError) :
    (ApiErrors.deserialize r).errors = r.err_list.err_item
    ∧ Client.search (Except.error de) (Except.ok (ApiErrors.deserialize r))
        = Except.error (Error.Api ⟨r.err_list.err_item⟩)
    ∧ (ApiErrors.deserialize sampleErrResultSet).errors.length = 2
    ∧ (ApiErrors.deserialize sampleErrResultSet).errors.head?.map ApiError.err_code
        = some "0101" :=
  ⟨rfl, rfl, rfl, rfl⟩

/-- Claim C8: each per-kind filtered view of a success page yields exactly
the items of that kind, in original page order (mapping the kind's
constructor over the view recovers precisely the filter of the page's item
list); on a page of three items of three distinct kinds, the three
matching views yield one item each. Re-invocation is trivially stable
since the views are pure functions of the page. -/
theorem filtered_views_exact (s : ResultSet) :
    s.filter_reference.map ResultItem.Reference
        = s.result.filter ResultItem.is_reference
    ∧ s.filter_manual.map ResultItem.Manual
        = s.result.filter ResultItem.is_manual
    ∧ s.filter_collection.map ResultItem.Collection
        = s.result.filter ResultItem.is_collection
    ∧ s.filter_profile.map ResultItem.Profile
        = s.result.filter ResultItem.is_profile
    ∧ samplePage.len = 3
    ∧ samplePage.filter_reference = [sampleReference]
    ∧ samplePage.filter_manual = [sampleManual]
    ∧ samplePage.filter_collection = [sampleCollection]
    ∧ samplePage.filter_profile = [] :=
  ⟨filterMap_reference s.result, filterMap_manual s.result,
   filterMap_collection s.result, filterMap_profile s.result,
   rfl, rfl, rfl, rfl, rfl⟩

/-- Claim C9: the simple-search constructor `Query::new` builds exactly
the same expression as `Query::equal("anywhere", terms)` — a leaf on the
index `anywhere` with the `Equal` relation and those terms. -/
theorem new_is_equal_anywhere (search_term : List String) :
    Query.new search_term = Query.equal "anywhere" search_term
    ∧ Query.new search_term
        = Query.SearchClause (Index.ofStr "anywhere") Relation.Equal search_term :=
  ⟨rfl, rfl⟩

/-- Claim C10: the `crt-date` decode yields no date for a missing field
and for the text `"00000000"`, and it fails exactly when the field is
present, different from `"00000000"`, and rejected by the date parser
(`chrono`'s `%Y%m%d` parse, modelled by the abstract `parse`). -/
theorem crt_date_decode_characterization (parse : String → Option NaiveDate)
    (field : Option String) :
    decode_crt_date parse none = Except.ok none
    ∧ decode_crt_date parse (some "00000000") = Except.ok none
    ∧ ((∃ e, decode_crt_date parse field = Except.error e) ↔
        ∃ s, field = some s ∧ s ≠ "00000000" ∧ parse s = none) := by
  refine ⟨rfl, by simp [decode_crt_date, de_date_opt], ?_⟩
  cases field with
  | none => simp [decode_crt_date]
  | some s =>
    by_cases hs : s = "00000000"
    · subst hs
      simp [decode_crt_date, de_date_opt]
    · cases hp : parse s with
      | none => simp [decode_crt_date, de_date_opt, hs, hp]
      | some d => simp [decode_crt_date, de_date_opt, hs, hp]

end CrdApi
